import Mathlib

/-!
Verification of the Blob Analyse text-classification and scoring engine
(`src/app.py`).

Texts are modelled as `List Char`.  Python's `re.search` with the simple
patterns used by the program (literals, character classes, `*`, `+`, `?`,
alternation) is modelled by a Brzozowski-derivative matcher over a small
regex type `Rx`; `re.search` succeeds iff some substring matches, which is
exactly what the derivative search decides.  The two anchored `re.sub`
calls of `clean_tekst` are modelled directly by their (deterministic)
leftmost-greedy semantics.  Machine arithmetic: all numbers involved are
small non-negative integers, modelled as `Nat`; the single float division
(`totaal_score / max_score * 100` with `max_score = 8`) is exact in IEEE
double precision for every possible numerator `0..8`, so `int(...)`
(truncation) coincides with `Nat` division, which is how it is modelled.
-/

/-! ## Character classes (ASCII, as used by the program's data) -/

/-- Python `\s` / `str.strip` whitespace, restricted to ASCII. -/
def isSpaceChar (c : Char) : Bool :=
  c = ' ' || c = '\t' || c = '\n' || c = '\r' || c = '\x0b' || c = '\x0c'

/-- ASCII letter, the class `[A-Za-z]`. -/
def isAsciiLetter (c : Char) : Bool :=
  ('a' ≤ c && c ≤ 'z') || ('A' ≤ c && c ≤ 'Z')

/-- ASCII digit, the class `\d`. -/
def isDigitChar (c : Char) : Bool :=
  '0' ≤ c && c ≤ '9'

/-- Python `\w` restricted to ASCII: letters, digits, underscore. -/
def isWordChar (c : Char) : Bool :=
  isAsciiLetter c || isDigitChar c || c = '_'

/-- ASCII uppercase letter, the class `[A-Z]`. -/
def isUpperChar (c : Char) : Bool :=
  'A' ≤ c && c ≤ 'Z'

/-! ## Regex engine (Brzozowski derivatives) -/

/-- Small regex language covering the patterns appearing in `src/app.py`. -/
inductive Rx where
  | emp : Rx
  | eps : Rx
  | cls : (Char → Bool) → Rx
  | alt : Rx → Rx → Rx
  | seq : Rx → Rx → Rx
  | star : Rx → Rx

/-- Does the regex accept the empty string? -/
def Rx.nullable : Rx → Bool
  | .emp => false
  | .eps => true
  | .cls _ => false
  | .alt a b => a.nullable || b.nullable
  | .seq a b => a.nullable && b.nullable
  | .star _ => true

/-- Brzozowski derivative with respect to one character. -/
def Rx.deriv : Rx → Char → Rx
  | .emp, _ => .emp
  | .eps, _ => .emp
  | .cls p, c => if p c then .eps else .emp
  | .alt a b, c => .alt (a.deriv c) (b.deriv c)
  | .seq a b, c =>
      if a.nullable then .alt (.seq (a.deriv c) b) (b.deriv c)
      else .seq (a.deriv c) b
  | .star a, c => .seq (a.deriv c) (.star a)

/-- Does the regex match some prefix of the text? -/
def Rx.matchesPfx : Rx → List Char → Bool
  | r, [] => r.nullable
  | r, c :: cs => r.nullable || (r.deriv c).matchesPfx cs

/-- Model of Python `re.search`: the regex matches somewhere in the text. -/
def rsearch (r : Rx) : List Char → Bool
  | [] => r.nullable
  | c :: cs => r.matchesPfx (c :: cs) || rsearch r cs

/-- Literal sequence of characters. -/
def Rx.lit : List Char → Rx
  | [] => .eps
  | c :: cs => .seq (.cls (fun d => d = c)) (Rx.lit cs)

/-- Literal regex from a string. -/
def rlit (s : String) : Rx := Rx.lit s.data

/-- Concatenation of a list of regexes. -/
def rcat (l : List Rx) : Rx := l.foldr Rx.seq .eps

/-- Regex `r?` (optional). -/
def ropt (r : Rx) : Rx := .alt r .eps

/-- Regex `\s*`. -/
def wsStar : Rx := .star (.cls isSpaceChar)

/-- Regex `\s+`. -/
def wsPlus : Rx := .seq (.cls isSpaceChar) wsStar

/-- Regex `\w+`. -/
def wordPlus : Rx := .seq (.cls isWordChar) (.star (.cls isWordChar))

/-- Regex `\d+`. -/
def digitPlus : Rx := .seq (.cls isDigitChar) (.star (.cls isDigitChar))

/-- Python substring membership `needle in haystack`
(equivalently `re.search` of the literal). -/
def containsSub (needle haystack : List Char) : Bool :=
  rsearch (Rx.lit needle) haystack

/-! ## Text Normalizer — `clean_tekst` (src/app.py lines 117–123) -/

/-- Left strip: drop leading whitespace. -/
def stripLeft (l : List Char) : List Char := l.dropWhile isSpaceChar

/-- Right strip: drop trailing whitespace. -/
def stripRight (l : List Char) : List Char :=
  (l.reverse.dropWhile isSpaceChar).reverse

/-- Python `str.strip()`. -/
def pyStrip (l : List Char) : List Char := stripRight (stripLeft l)

/-- The character class `[A-Za-z;]` of the first `re.sub` pattern. -/
def headClass (c : Char) : Bool := isAsciiLetter c || c = ';'

/-- Index of the last occurrence of `;` in a list, if any. -/
def lastSemi : List Char → Option Nat
  | [] => none
  | c :: cs =>
      match lastSemi cs with
      | some j => some (j + 1)
      | none => if c = ';' then some 0 else none

/-- Model of `re.sub(r'^[A-Za-z;]+;\s*\n*', '', tekst)`: with leftmost-greedy
backtracking the match consumes the leading `[A-Za-z;]` run up to (and
including) its last `;` — provided that `;` is preceded by at least one
class character — followed by all whitespace (`\s*\n*`). -/
def removeHeader (l : List Char) : List Char :=
  match lastSemi (l.takeWhile headClass) with
  | some j => if 1 ≤ j then (l.drop (j + 1)).dropWhile isSpaceChar else l
  | none => l

/-- Model of `re.sub(r'^\s*d([A-Z])', r'\1', tekst)`: a leading whitespace run
followed by `d` and an uppercase letter is replaced by just that letter. -/
def removeLeadD (l : List Char) : List Char :=
  match l.dropWhile isSpaceChar with
  | 'd' :: c :: rest => if isUpperChar c then c :: rest else l
  | _ => l

/-- Function `clean_tekst` (src/app.py lines 117–123): the two substitutions, then
`str.strip()`. -/
def clean_tekst (l : List Char) : List Char :=
  pyStrip (removeLeadD (removeHeader l))

/-! ## Dynamically-typed entry for the normalizer (for null/NaN inputs) -/

/-- Python values that may appear in a blob text field. -/
inductive PyVal where
  | none : PyVal
  | nan : PyVal
  | str : List Char → PyVal
deriving DecidableEq

/-- Python exception kinds relevant here. -/
inductive PyError where
  | typeError : PyError
deriving DecidableEq

/-- Function `clean_tekst` as actually invoked on a dynamically-typed value:
`re.sub` raises `TypeError: expected string or bytes-like object` when its
argument is `None` or a float `nan`; only `str` arguments are processed. -/
def clean_tekst_dyn : PyVal → Except PyError (List Char)
  | .str s => .ok (clean_tekst s)
  | _ => .error .typeError

/-! ## Contract Checker — `classify_werk` (src/app.py lines 152–192) -/

/-- Keyword table `CONTRACT_KEYWORDS` (src/app.py lines 152–155). -/
def CONTRACT_KEYWORDS : List (List Char) :=
  ["onderhoud".data, "preventief".data, "controle".data, "inspectie".data,
   "jaarlijks".data, "periodiek".data, "checklist".data, "servicebeurt".data,
   "onderhoudsbeurt".data]

/-- Keyword table `MEERWERK_KEYWORDS` (src/app.py lines 157–160). -/
def MEERWERK_KEYWORDS : List (List Char) :=
  ["vervangen".data, "defect".data, "kapot".data, "storing".data,
   "reparatie".data, "nieuw".data, "extra".data, "bijkomend".data,
   "uitbreiding".data, "aanpassing".data, "wijziging".data]

/-- The three classification strings returned by `classify_werk`. -/
inductive Classificatie where
  | MEERWERK : Classificatie
  | CONTRACT : Classificatie
  | ONZEKER : Classificatie
deriving DecidableEq

/-- Return value of `classify_werk`. -/
structure ClassifyResult where
  classificatie : Classificatie
  confidence : Nat
  contract_indicators : Nat
  meerwerk_indicators : Nat
  contract_matches : List (List Char)
  meerwerk_matches : List (List Char)
deriving DecidableEq

/-- Function `classify_werk` (src/app.py lines 163–192): membership test of each
keyword against the lowercased text, counts per side, then the decision
rule with confidence `min(95, 50 + 15 * diff)`. -/
def classify_werk (tekst : List Char) : ClassifyResult :=
  let tl := tekst.map Char.toLower
  let contract_matches := CONTRACT_KEYWORDS.filter (fun kw => containsSub kw tl)
  let meerwerk_matches := MEERWERK_KEYWORDS.filter (fun kw => containsSub kw tl)
  let contract_score := contract_matches.length
  let meerwerk_score := meerwerk_matches.length
  if contract_score < meerwerk_score then
    ⟨.MEERWERK, min 95 (50 + (meerwerk_score - contract_score) * 15),
      contract_score, meerwerk_score, contract_matches, meerwerk_matches⟩
  else if meerwerk_score < contract_score then
    ⟨.CONTRACT, min 95 (50 + (contract_score - meerwerk_score) * 15),
      contract_score, meerwerk_score, contract_matches, meerwerk_matches⟩
  else
    ⟨.ONZEKER, 50, contract_score, meerwerk_score,
      contract_matches, meerwerk_matches⟩

/-! ## Meerwerk Scanner — rule table and `scan_for_meerwerk`
(src/app.py lines 50–114) -/

/-- One entry of `MEERWERK_PATTERNS`. -/
structure RuleCfg where
  patterns : List Rx
  indicatie : String
  gem_waarde : Nat

/-- Rule table `MEERWERK_PATTERNS` (src/app.py lines 50–96), in dict insertion order. -/
def MEERWERK_PATTERNS : List (String × RuleCfg) :=
  [("vervangen",
    ⟨[rlit "vervangen", rlit "vervanging",
      rcat [rlit "nieuw", ropt (rlit "e"), wsPlus, wordPlus, wsPlus, rlit "geplaatst"]],
     "Component vervanging", 150⟩),
   ("accu",
    ⟨[rcat [rlit "accu", wsStar,
        .alt (rlit "vervangen") (.alt (rlit "gewisseld") (rlit "nieuw"))],
      rcat [rlit "batterij", wsStar, .alt (rlit "vervangen") (rlit "nieuw")]],
     "Accu vervanging", 85⟩),
   ("pir",
    ⟨[rcat [rlit "pir", wsStar,
        .alt (rlit "vervangen") (.alt (rlit "defect") (rlit "nieuw"))],
      rcat [rlit "detector", wsStar, .alt (rlit "vervangen") (rlit "nieuw")]],
     "PIR/Detector vervanging", 120⟩),
   ("camera",
    ⟨[rcat [rlit "camera", wsStar,
        .alt (rlit "vervangen") (.alt (rlit "nieuw") (rlit "geplaatst"))],
      rcat [rlit "recorder", wsStar, .alt (rlit "vervangen") (rlit "nieuw")]],
     "Camera/Recorder vervanging", 350⟩),
   ("slot",
    ⟨[rcat [rlit "slot", wsStar, .alt (rlit "vervangen") (rlit "nieuw")],
      rcat [rlit "sleutel", wsStar,
        .alt (rlit "bijgemaakt") (.alt (rlit "nieuw") (rlit "gemaakt"))]],
     "Slot/Sleutel werk", 75⟩),
   ("sirene",
    ⟨[rcat [rlit "sirene", wsStar,
        .alt (rlit "vervangen") (.alt (rlit "defect") (rlit "nieuw"))]],
     "Sirene vervanging", 95⟩),
   ("kabel",
    ⟨[rcat [rlit "kabel", wsStar,
        .alt (rlit "getrokken") (.alt (rlit "nieuw") (rlit "vervangen"))],
      rcat [rlit "bekabeling", wsStar, .alt (rlit "nieuw") (rlit "aangepast")]],
     "Bekabeling werk", 200⟩),
   ("software",
    ⟨[rcat [rlit "software", wsStar, .alt (rlit "update") (rlit "upgrade")],
      rcat [rlit "firmware", wsStar, .alt (rlit "update") (rlit "upgrade")]],
     "Software/Firmware update", 50⟩),
   ("extra_werk",
    ⟨[rcat [rlit "extra", wsPlus, wordPlus], rlit "bijkomend", rlit "aanvullend",
      rcat [rlit "tevens", wsPlus, wordPlus, wsPlus,
        .alt (rlit "geplaatst") (rlit "vervangen")]],
     "Extra werkzaamheden", 100⟩)]

/-- One detected meerwerk item, as appended by `scan_for_meerwerk`. -/
structure MeerwerkItem where
  categorie : String
  indicatie : String
  geschatte_waarde : Nat
deriving DecidableEq

/-- Function `scan_for_meerwerk` (src/app.py lines 99–114): for each category, in
table order, append one item iff some pattern of the category matches the
lowercased text (the `break` after the first match makes the inner loop
a `List.any`). -/
def scan_for_meerwerk (tekst : List Char) : List MeerwerkItem :=
  let tl := tekst.map Char.toLower
  (MEERWERK_PATTERNS.filter
      (fun pc => pc.2.patterns.any (fun p => rsearch p tl))).map
    (fun pc => ⟨pc.1, pc.2.indicatie, pc.2.gem_waarde⟩)

/-! ## Record shapes and the per-collection analyses -/

/-- One record with an `id` and a `tekst` blob field (shape shared by
`monteur_notities` and `storing_meldingen`). -/
structure Notitie where
  id : Nat
  tekst : List Char
deriving DecidableEq

/-- The blob data handed to the analysis functions. -/
structure BlobData where
  monteur_notities : List Notitie
  storing_meldingen : List Notitie
deriving DecidableEq

/-- One row of `run_meerwerk_analyse`'s result list. -/
structure MeerwerkResult where
  id : Nat
  tekst : List Char
  meerwerk_items : List MeerwerkItem
  aantal_items : Nat
  geschatte_waarde : Nat
deriving DecidableEq

/-- The body of the loop of `run_meerwerk_analyse` (src/app.py lines
126–143): clean the text, scan it, and keep the record only when the scan
found something (`if meerwerk:`). -/
def meerwerk_kandidaten (blob : BlobData) : List MeerwerkResult :=
  blob.monteur_notities.filterMap (fun n =>
    let tekst_clean := clean_tekst n.tekst
    let meerwerk := scan_for_meerwerk tekst_clean
    if meerwerk.isEmpty then none
    else some ⟨n.id, tekst_clean.take 300, meerwerk, meerwerk.length,
      (meerwerk.map (fun m => m.geschatte_waarde)).sum⟩)

/-- The comparison realising Python's
`sorted(key=lambda x: x["geschatte_waarde"], reverse=True)`:
a stable descending sort, i.e. a stable sort for the total preorder
`b.geschatte_waarde ≤ a.geschatte_waarde`. -/
def waardeGE (a b : MeerwerkResult) : Bool :=
  b.geschatte_waarde ≤ a.geschatte_waarde

/-- Function `run_meerwerk_analyse` (src/app.py lines 126–145). -/
def run_meerwerk_analyse (blob : BlobData) : List MeerwerkResult :=
  (meerwerk_kandidaten blob).mergeSort waardeGE

/-! ## Terugkeer Analyse (src/app.py lines 220–287) -/

/-- Pattern table `STORING_PATTERNS` (src/app.py lines 220–223). -/
def STORING_PATTERNS : List Rx :=
  [rlit "storing", rlit "defect", rlit "kapot", rlit "niet werkend",
   rlit "geen signaal", rlit "probleem", rlit "fout", rlit "error",
   rlit "alarm", rcat [rlit "vals", wsStar, rlit "alarm"]]

/-- The indicator count
`sum(1 for p in STORING_PATTERNS if re.search(p, tekst))` computed on an
already lowercased text. -/
def storing_score (tekst : List Char) : Nat :=
  STORING_PATTERNS.countP (fun p => rsearch p tekst)

/-- One record of the `storingen` list built by `extract_storingen`. -/
structure StoringRec where
  id : Nat
  tekst : List Char
  type : String
  score : Nat
deriving DecidableEq

/-- The record appended for a qualifying `storing_meldingen` entry. -/
def mkMeldingRec (m : Notitie) : StoringRec :=
  ⟨m.id, m.tekst.take 200, "storing_melding",
    storing_score (m.tekst.map Char.toLower)⟩

/-- The record appended for a qualifying `monteur_notities` entry. -/
def mkNotitieRec (n : Notitie) : StoringRec :=
  ⟨n.id, n.tekst.take 200, "monteur_notitie",
    storing_score (n.tekst.map Char.toLower)⟩

/-- Function `extract_storingen` (src/app.py lines 226–258): fault reports with a
positive score, then technician notes with score at least 2, in input
order. -/
def extract_storingen (blob : BlobData) : List StoringRec :=
  blob.storing_meldingen.filterMap (fun m =>
      if 0 < storing_score (m.tekst.map Char.toLower) then some (mkMeldingRec m)
      else none)
    ++
  blob.monteur_notities.filterMap (fun n =>
      if 2 ≤ storing_score (n.tekst.map Char.toLower) then some (mkNotitieRec n)
      else none)

/-- The six fault-type buckets used by `analyse_terugkeer_patronen`
(the five keyword categories plus the catch-all). -/
inductive Bucket where
  | pirDetector : Bucket
  | cameraVideo : Bucket
  | communicatie : Bucket
  | voedingAccu : Bucket
  | toegangSlot : Bucket
  | overige : Bucket
deriving DecidableEq

/-- The dict key (Dutch label) of each bucket in the source. -/
def Bucket.label : Bucket → String
  | .pirDetector => "PIR/Detector problemen"
  | .cameraVideo => "Camera/Video problemen"
  | .communicatie => "Communicatie problemen"
  | .voedingAccu => "Voeding/Accu problemen"
  | .toegangSlot => "Toegang/Slot problemen"
  | .overige => "Overige storingen"

/-- The `if/elif/else` chain of `analyse_terugkeer_patronen` (src/app.py
lines 269–281), applied to the stored (truncated) record text, lowercased. -/
def bucketOf (tekst : List Char) : Bucket :=
  let t := tekst.map Char.toLower
  if containsSub "pir".data t || containsSub "detector".data t then .pirDetector
  else if containsSub "camera".data t || containsSub "recorder".data t then .cameraVideo
  else if containsSub "communicatie".data t || containsSub "signaal".data t then .communicatie
  else if containsSub "accu".data t || containsSub "batterij".data t
       || containsSub "stroom".data t then .voedingAccu
  else if containsSub "slot".data t || containsSub "deur".data t then .toegangSlot
  else .overige

/-- Stable descending sort by score, realising
`sorted(storingen, key=lambda x: x["score"], reverse=True)`. -/
def scoreGE (a b : StoringRec) : Bool := b.score ≤ a.score

/-- Return value of `analyse_terugkeer_patronen`; `storing_types` is the
bucket-count mapping built by the `defaultdict(int)` loop. -/
structure TerugkeerResult where
  totaal_storingen : Nat
  storing_types : Bucket → Nat
  details : List StoringRec

/-- Function `analyse_terugkeer_patronen` (src/app.py lines 261–287).  The
`werkbonnen_data` argument is accepted and ignored, as in the source. -/
def analyse_terugkeer_patronen (blob : BlobData) (werkbonnen_data : Option BlobData) :
    TerugkeerResult :=
  let storingen := extract_storingen blob
  { totaal_storingen := storingen.length
    storing_types := fun b => storingen.countP (fun s => bucketOf s.tekst = b)
    details := (storingen.mergeSort scoreGE).take 50 }

/-! ## Compleetheid Check (src/app.py lines 294–376) -/

/-- One entry of `VEREISTE_ELEMENTEN`. -/
structure ElementCfg where
  patterns : List Rx
  gewicht : Nat

/-- The `actie` pattern list of `VEREISTE_ELEMENTEN`. -/
def ACTIE_PATTERNS : List Rx :=
  [rlit "vervangen", rlit "geplaatst", rlit "aangepast", rlit "gerepareerd",
   rlit "getest", rlit "uitgevoerd", rlit "gecontroleerd"]

/-- The `resultaat` pattern list of `VEREISTE_ELEMENTEN`. -/
def RESULTAAT_PATTERNS : List Rx :=
  [rlit "werkt", rlit "functioneert", rlit "opgelost", rlit "verholpen",
   rlit "in orde", rlit "naar behoren"]

/-- The `component` pattern list of `VEREISTE_ELEMENTEN`. -/
def COMPONENT_PATTERNS : List Rx :=
  [rlit "pir", rlit "camera", rlit "slot", rlit "sirene", rlit "centrale",
   rlit "detector", rlit "accu", rlit "kabel"]

/-- The `locatie` pattern list of `VEREISTE_ELEMENTEN`. -/
def LOCATIE_PATTERNS : List Rx :=
  [rcat [rlit "zone", wsStar, digitPlus], rlit "verdieping", rlit "hal",
   rlit "kantoor", rlit "magazijn", rlit "entree", rlit "gang"]

/-- Rule table `VEREISTE_ELEMENTEN` (src/app.py lines 294–315), in dict insertion
order. -/
def VEREISTE_ELEMENTEN : List (String × ElementCfg) :=
  [("actie", ⟨ACTIE_PATTERNS, 3⟩),
   ("resultaat", ⟨RESULTAAT_PATTERNS, 2⟩),
   ("component", ⟨COMPONENT_PATTERNS, 2⟩),
   ("locatie", ⟨LOCATIE_PATTERNS, 1⟩)]

/-- Return value of `check_compleetheid`. -/
structure CompleetheidCheck where
  elementen : List (String × Bool)
  score : Nat
  max_score : Nat
  percentage : Nat
  kwaliteit : String
deriving DecidableEq

/-- Function `check_compleetheid` (src/app.py lines 318–347).  `percentage` is
`int((totaal_score / max_score) * 100)`: with `max_score = 8` every value
`k/8*100` is exactly representable as an IEEE double, so the Python float
truncation coincides with natural-number division `k * 100 / 8`. -/
def check_compleetheid (tekst : List Char) : CompleetheidCheck :=
  let tl := tekst.map Char.toLower
  let aanwezig := fun (ec : String × ElementCfg) =>
    ec.2.patterns.any (fun p => rsearch p tl)
  let gevonden := VEREISTE_ELEMENTEN.map (fun ec => (ec.1, aanwezig ec))
  let max_score := (VEREISTE_ELEMENTEN.map (fun ec => ec.2.gewicht)).sum
  let totaal_score :=
    ((VEREISTE_ELEMENTEN.filter aanwezig).map (fun ec => ec.2.gewicht)).sum
  let percentage := totaal_score * 100 / max_score
  { elementen := gevonden
    score := totaal_score
    max_score := max_score
    percentage := percentage
    kwaliteit :=
      if 75 ≤ percentage then "GOED"
      else if 50 ≤ percentage then "MATIG"
      else "ONVOLLEDIG" }

/-- One row of the per-quality detail lists of `run_compleetheid_analyse`. -/
structure CompleetheidDetail where
  id : Nat
  tekst : List Char
  score : Nat
  elementen : List (String × Bool)
deriving DecidableEq

/-- Return value of `run_compleetheid_analyse`: the three bucket counts
(`verdeling`), the mean percentage, and the three detail lists.  The mean
is modelled in `ℚ` (the Python float division `sum(scores)/len(scores)`),
together with the underlying `scores` list. -/
structure CompleetheidResult where
  verdeling_goed : Nat
  verdeling_matig : Nat
  verdeling_onvolledig : Nat
  gemiddelde_score : ℚ
  details_goed : List CompleetheidDetail
  details_matig : List CompleetheidDetail
  details_onvolledig : List CompleetheidDetail
  scores : List Nat
deriving DecidableEq

/-- The detail row built for one notitie. -/
def mkCompleetheidDetail (n : Notitie) : CompleetheidDetail :=
  ⟨n.id, n.tekst.take 200, (check_compleetheid n.tekst).percentage,
    (check_compleetheid n.tekst).elementen⟩

/-- The loop filter of `run_compleetheid_analyse`:
`if len(tekst.strip()) < 10: continue` — i.e. a note is scored iff its
stripped text has length at least 10 (interior whitespace included). -/
def scored_notities (l : List Notitie) : List Notitie :=
  l.filter (fun n => 10 ≤ (pyStrip n.tekst).length)

/-- Function `run_compleetheid_analyse` (src/app.py lines 350–376). -/
def run_compleetheid_analyse (blob : BlobData) : CompleetheidResult :=
  let act := scored_notities blob.monteur_notities
  let detailsFor := fun (k : String) =>
    (act.filter (fun n => (check_compleetheid n.tekst).kwaliteit = k)).map
      mkCompleetheidDetail
  let scores := act.map (fun n => (check_compleetheid n.tekst).percentage)
  { verdeling_goed := (detailsFor "GOED").length
    verdeling_matig := (detailsFor "MATIG").length
    verdeling_onvolledig := (detailsFor "ONVOLLEDIG").length
    gemiddelde_score :=
      if scores.isEmpty then 0 else (scores.sum : ℚ) / scores.length
    details_goed := detailsFor "GOED"
    details_matig := detailsFor "MATIG"
    details_onvolledig := detailsFor "ONVOLLEDIG"
    scores := scores }

/-- Number of non-whitespace characters of a text.  This is the exclusion
criterion exactly as the spec words it ("fewer than 10 non-whitespace
characters after trimming"); the source instead tests the full length of
the stripped text. -/
def nonWsLen (l : List Char) : Nat := (l.filter (fun c => !isSpaceChar c)).length

/-! ## Helper abbreviations mirroring the local variables of `classify_werk` -/

/-- The `contract_matches` list of `classify_werk`. -/
def contract_matches_of (t : List Char) : List (List Char) :=
  CONTRACT_KEYWORDS.filter (fun kw => containsSub kw (t.map Char.toLower))

/-- The `meerwerk_matches` list of `classify_werk`. -/
def meerwerk_matches_of (t : List Char) : List (List Char) :=
  MEERWERK_KEYWORDS.filter (fun kw => containsSub kw (t.map Char.toLower))

/-- The `contract_score` of `classify_werk`. -/
def contract_score (t : List Char) : Nat := (contract_matches_of t).length

/-- The `meerwerk_score` of `classify_werk`. -/
def meerwerk_score (t : List Char) : Nat := (meerwerk_matches_of t).length

/-- Case analysis of `classify_werk`: in each of the three branches the
full return value is determined. -/
lemma classify_werk_cases (t : List Char) :
    (contract_score t < meerwerk_score t ∧ classify_werk t =
      ⟨.MEERWERK, min 95 (50 + (meerwerk_score t - contract_score t) * 15),
       contract_score t, meerwerk_score t, contract_matches_of t, meerwerk_matches_of t⟩)
    ∨ (meerwerk_score t < contract_score t ∧ classify_werk t =
      ⟨.CONTRACT, min 95 (50 + (contract_score t - meerwerk_score t) * 15),
       contract_score t, meerwerk_score t, contract_matches_of t, meerwerk_matches_of t⟩)
    ∨ (meerwerk_score t = contract_score t ∧ classify_werk t =
      ⟨.ONZEKER, 50, contract_score t, meerwerk_score t,
       contract_matches_of t, meerwerk_matches_of t⟩) := by
  simp only [classify_werk]
  split_ifs with h1 h2
  · exact Or.inl ⟨h1, rfl⟩
  · exact Or.inr (Or.inl ⟨h2, rfl⟩)
  · exact Or.inr (Or.inr ⟨Nat.le_antisymm (Nat.not_lt.mp h1) (Nat.not_lt.mp h2), rfl⟩)

/-- Claim C1: for every input text the classifier counts each keyword at
most once per side by a membership test; if the extra-work count exceeds
the contract count the result is MEERWERK with confidence
`min(95, 50 + 15*(meerwerk_score - contract_score))`, the mirrored rule
gives CONTRACT, and equal counts give ONZEKER with confidence 50. -/
theorem claim1_contract_classifier_decision (t : List Char) :
    ((classify_werk t).contract_indicators = contract_score t
      ∧ (classify_werk t).meerwerk_indicators = meerwerk_score t
      ∧ (classify_werk t).contract_matches = contract_matches_of t
      ∧ (classify_werk t).meerwerk_matches = meerwerk_matches_of t)
    ∧ (contract_score t < meerwerk_score t →
        (classify_werk t).classificatie = Classificatie.MEERWERK
          ∧ (classify_werk t).confidence
              = min 95 (50 + (meerwerk_score t - contract_score t) * 15))
    ∧ (meerwerk_score t < contract_score t →
        (classify_werk t).classificatie = Classificatie.CONTRACT
          ∧ (classify_werk t).confidence
              = min 95 (50 + (contract_score t - meerwerk_score t) * 15))
    ∧ (meerwerk_score t = contract_score t →
        (classify_werk t).classificatie = Classificatie.ONZEKER
          ∧ (classify_werk t).confidence = 50) := by
  rcases classify_werk_cases t with ⟨h, e⟩ | ⟨h, e⟩ | ⟨h, e⟩ <;>
    rw [e] <;>
    refine ⟨⟨rfl, rfl, rfl, rfl⟩, ?_, ?_, ?_⟩ <;> intro hh <;>
    first
      | exact ⟨rfl, rfl⟩
      | omega

/-- Witness for claim C1, applying the theorem to the texts "defect"
(one extra-work keyword), "preventief onderhoud" (two contract keywords)
and the empty text (a 0–0 tie). -/
theorem claim1_contract_classifier_decision_witness :
    (classify_werk "defect".data).classificatie = Classificatie.MEERWERK
    ∧ (classify_werk "defect".data).confidence = 65
    ∧ (classify_werk "preventief onderhoud".data).classificatie = Classificatie.CONTRACT
    ∧ (classify_werk "preventief onderhoud".data).confidence = 80
    ∧ (classify_werk []).classificatie = Classificatie.ONZEKER
    ∧ (classify_werk []).confidence = 50 := by
  refine ⟨((claim1_contract_classifier_decision "defect".data).2.1 (by decide)).1, ?_,
    ((claim1_contract_classifier_decision "preventief onderhoud".data).2.2.1 (by decide)).1, ?_,
    ((claim1_contract_classifier_decision []).2.2.2 (by decide)).1,
    ((claim1_contract_classifier_decision []).2.2.2 (by decide)).2⟩
  · have h := ((claim1_contract_classifier_decision "defect".data).2.1 (by decide)).2
    rw [h]; decide
  · have h := ((claim1_contract_classifier_decision
        "preventief onderhoud".data).2.2.1 (by decide)).2
    rw [h]; decide

/-- Claim C9: the classifier confidence always lies in {50, 65, 80, 95},
hence always between 50 and 95. -/
theorem claim9_confidence_range (t : List Char) :
    ((classify_werk t).confidence = 50 ∨ (classify_werk t).confidence = 65
      ∨ (classify_werk t).confidence = 80 ∨ (classify_werk t).confidence = 95)
    ∧ 50 ≤ (classify_werk t).confidence ∧ (classify_werk t).confidence ≤ 95 := by
  rcases classify_werk_cases t with ⟨h, e⟩ | ⟨h, e⟩ | ⟨h, e⟩
  · have hc : (classify_werk t).confidence
        = min 95 (50 + (meerwerk_score t - contract_score t) * 15) := by rw [e]
    omega
  · have hc : (classify_werk t).confidence
        = min 95 (50 + (contract_score t - meerwerk_score t) * 15) := by rw [e]
    omega
  · have hc : (classify_werk t).confidence = 50 := by rw [e]
    omega

/-! ## Strip idempotence (for claim C2) -/

/-- Dropping a prefix by a predicate is idempotent. -/
lemma dropWhile_idem (p : Char → Bool) (l : List Char) :
    (l.dropWhile p).dropWhile p = l.dropWhile p := by
  induction l with
  | nil => rfl
  | cons a t ih =>
    by_cases h : p a
    · simpa [List.dropWhile_cons_of_pos h] using ih
    · simp [List.dropWhile_cons_of_neg h]

/-- Left strip is idempotent. -/
lemma stripLeft_idem (l : List Char) : stripLeft (stripLeft l) = stripLeft l :=
  dropWhile_idem isSpaceChar l

/-- Right strip is idempotent. -/
lemma stripRight_idem (l : List Char) : stripRight (stripRight l) = stripRight l := by
  unfold stripRight
  rw [List.reverse_reverse, dropWhile_idem]

/-- Right-stripping a left-stripped list leaves it left-stripped. -/
lemma stripLeft_stripRight (l : List Char) (h : stripLeft l = l) :
    stripLeft (stripRight l) = stripRight l := by
  cases l with
  | nil => rfl
  | cons a t =>
    have hpa : isSpaceChar a = false := by
      by_cases hp : isSpaceChar a
      · exfalso
        unfold stripLeft at h
        rw [List.dropWhile_cons_of_pos hp] at h
        have := (List.dropWhile_sublist (l := t) isSpaceChar).length_le
        rw [h] at this
        simp at this
      · simp [hp]
    unfold stripLeft stripRight
    rw [List.reverse_cons, List.dropWhile_append]
    by_cases he : (t.reverse.dropWhile isSpaceChar).isEmpty
    · simp [he, List.dropWhile_cons, hpa]
    · simp only [he, if_false, Bool.false_eq_true]
      rw [List.reverse_append]
      simp [List.dropWhile_cons, hpa]

/-- Python `str.strip()` is idempotent. -/
lemma pyStrip_idem (l : List Char) : pyStrip (pyStrip l) = pyStrip l := by
  unfold pyStrip
  rw [stripLeft_stripRight (stripLeft l) (stripLeft_idem l), stripRight_idem]

/-- Claim C2, counterexample: the normalizer is not idempotent.  On the
input " a;" the first pass only strips the blank (the leading space blocks
the header pattern), leaving "a;", which a second pass then consumes
entirely via the header pattern. -/
theorem claim2_normalizer_not_idem_cex :
    clean_tekst " a;".data = "a;".data
    ∧ clean_tekst (clean_tekst " a;".data) = []
    ∧ clean_tekst (clean_tekst " a;".data) ≠ clean_tekst " a;".data :=
  ⟨by decide, by decide, by decide⟩

/-- Claim C2 as amended: the normalizer is idempotent on exactly those
inputs whose normalized form is itself free of the two removable leading
artifacts (it is a fixed point of both substitution passes); the final
`strip` is always idempotent. -/
theorem claim2_normalizer_conditional_idem (x : List Char)
    (h1 : removeHeader (clean_tekst x) = clean_tekst x)
    (h2 : removeLeadD (clean_tekst x) = clean_tekst x) :
    clean_tekst (clean_tekst x) = clean_tekst x := by
  show pyStrip (removeLeadD (removeHeader (clean_tekst x))) = clean_tekst x
  rw [h1, h2]
  show pyStrip (pyStrip (removeLeadD (removeHeader x))) = clean_tekst x
  rw [pyStrip_idem]
  rfl

/-- Witness for claim C2's amended statement at a typical RTF-residue
input. -/
theorem claim2_normalizer_conditional_idem_witness :
    clean_tekst (clean_tekst "Arial;Symbol;\nStoring verholpen".data)
      = clean_tekst "Arial;Symbol;\nStoring verholpen".data :=
  claim2_normalizer_conditional_idem _ (by decide) (by decide)

/-- Claim C3, counterexample: a null text field reaches `re.sub` and
raises `TypeError`; it is not normalized to the empty string. -/
theorem claim3_normalizer_null_raises_cex :
    clean_tekst_dyn PyVal.none = Except.error PyError.typeError
    ∧ ∀ s : List Char, clean_tekst_dyn PyVal.none ≠ Except.ok s :=
  ⟨rfl, fun _ h => Except.noConfusion h⟩

/-- Claim C3 as amended: on every string input the normalizer returns a
result and never raises; a null or NaN (non-string) input raises a
`TypeError` instead of being treated as the empty string. -/
theorem claim3_normalizer_dyn_behavior (v : PyVal) :
    (∀ s : List Char, v = PyVal.str s → clean_tekst_dyn v = Except.ok (clean_tekst s))
    ∧ ((v = PyVal.none ∨ v = PyVal.nan) →
        clean_tekst_dyn v = Except.error PyError.typeError) := by
  cases v <;> simp [clean_tekst_dyn]

/-- Witness for claim C3's amended statement: a string input is processed,
a NaN input raises. -/
theorem claim3_normalizer_dyn_behavior_witness :
    clean_tekst_dyn (PyVal.str "Arial;Symbol;\nTest".data) = Except.ok "Test".data
    ∧ clean_tekst_dyn PyVal.nan = Except.error PyError.typeError := by
  constructor
  · have h := (claim3_normalizer_dyn_behavior (PyVal.str "Arial;Symbol;\nTest".data)).1 _ rfl
    rw [h]
    have he : clean_tekst "Arial;Symbol;\nTest".data = "Test".data := by decide
    rw [he]
  · exact (claim3_normalizer_dyn_behavior PyVal.nan).2 (Or.inr rfl)

/-- Claim C4, counterexample: scanning "accu vervangen, verder niets" does
not yield exactly one Detection Result with categories ["accu"] and value
85 — the generic replacement pattern of the "vervangen" category also
matches the word "vervangen". -/
theorem claim4_accu_example_cex :
    (scan_for_meerwerk "accu vervangen, verder niets".data).length ≠ 1
    ∧ ¬((scan_for_meerwerk "accu vervangen, verder niets".data).map
          (fun m => m.categorie) = ["accu"]
        ∧ ((scan_for_meerwerk "accu vervangen, verder niets".data).map
          (fun m => m.geschatte_waarde)).sum = 85) := by
  decide

/-- Claim C4 as amended: scanning "accu vervangen, verder niets" yields
exactly two Detection Results, for the categories "vervangen" (150) and
"accu" (85) in table order, with total estimated value 235. -/
theorem claim4_accu_example_amended :
    scan_for_meerwerk "accu vervangen, verder niets".data
      = [⟨"vervangen", "Component vervanging", 150⟩,
         ⟨"accu", "Accu vervanging", 85⟩]
    ∧ ((scan_for_meerwerk "accu vervangen, verder niets".data).map
        (fun m => m.geschatte_waarde)).sum = 235 := by
  decide

/-- Claim C5, counterexample: a text containing "vervangen", "pir" and
"werkt" with no location phrase scores 7 out of 8, but the truncated
percentage is 87 (`int(7/8*100) = int(87.5) = 87`), not 88. -/
theorem claim5_completeness_example_cex :
    (rsearch (rlit "vervangen") ("pir vervangen werkt".data.map Char.toLower) = true
      ∧ rsearch (rlit "pir") ("pir vervangen werkt".data.map Char.toLower) = true
      ∧ rsearch (rlit "werkt") ("pir vervangen werkt".data.map Char.toLower) = true
      ∧ ∀ p ∈ LOCATIE_PATTERNS,
          rsearch p ("pir vervangen werkt".data.map Char.toLower) = false)
    ∧ (check_compleetheid "pir vervangen werkt".data).score = 7
    ∧ (check_compleetheid "pir vervangen werkt".data).max_score = 8
    ∧ (check_compleetheid "pir vervangen werkt".data).percentage = 87
    ∧ (check_compleetheid "pir vervangen werkt".data).percentage ≠ 88
    ∧ (check_compleetheid "pir vervangen werkt".data).kwaliteit = "GOED" := by
  decide

/-- Claim C5 as amended: every note whose lowercased text matches
"vervangen", "werkt" and "pir" but no location pattern scores 7 of 8 with
truncated percentage 87 and quality label GOED. -/
theorem claim5_completeness_787_good (t : List Char)
    (ha : rsearch (rlit "vervangen") (t.map Char.toLower) = true)
    (hr : rsearch (rlit "werkt") (t.map Char.toLower) = true)
    (hc : rsearch (rlit "pir") (t.map Char.toLower) = true)
    (hl : ∀ p ∈ LOCATIE_PATTERNS, rsearch p (t.map Char.toLower) = false) :
    check_compleetheid t
      = ⟨[("actie", true), ("resultaat", true), ("component", true), ("locatie", false)],
         7, 8, 87, "GOED"⟩ := by
  simp only [LOCATIE_PATTERNS, List.mem_cons, List.not_mem_nil, or_false,
    forall_eq_or_imp, forall_eq] at hl
  obtain ⟨hl1, hl2, hl3, hl4, hl5, hl6, hl7⟩ := hl
  simp [check_compleetheid, VEREISTE_ELEMENTEN, ACTIE_PATTERNS, RESULTAAT_PATTERNS,
    COMPONENT_PATTERNS, LOCATIE_PATTERNS, ha, hr, hc, hl1, hl2, hl3, hl4, hl5, hl6, hl7]

/-- Witness for claim C5's amended statement at the text
"pir vervangen werkt". -/
theorem claim5_completeness_787_good_witness :
    check_compleetheid "pir vervangen werkt".data
      = ⟨[("actie", true), ("resultaat", true), ("component", true), ("locatie", false)],
         7, 8, 87, "GOED"⟩ :=
  claim5_completeness_787_good _ (by decide) (by decide) (by decide) (by decide)

/-- Claim C6: the recurring-fault aggregator includes a fault-report
record iff it has at least 1 matched fault indicator, and a
technician-note record iff it has at least 2; membership in the extracted
list is exactly characterized by these thresholds. -/
theorem claim6_fault_inclusion_thresholds (blob : BlobData) (r : StoringRec) :
    r ∈ extract_storingen blob ↔
      ((∃ m ∈ blob.storing_meldingen,
          1 ≤ storing_score (m.tekst.map Char.toLower) ∧ r = mkMeldingRec m)
        ∨ (∃ n ∈ blob.monteur_notities,
          2 ≤ storing_score (n.tekst.map Char.toLower) ∧ r = mkNotitieRec n)) := by
  unfold extract_storingen
  simp only [List.mem_append, List.mem_filterMap, Option.ite_none_right_eq_some,
    Option.some.injEq]
  constructor
  · rintro (⟨m, hm, hs, he⟩ | ⟨n, hn, hs, he⟩)
    · exact Or.inl ⟨m, hm, hs, he.symm⟩
    · exact Or.inr ⟨n, hn, hs, he.symm⟩
  · rintro (⟨m, hm, hs, he⟩ | ⟨n, hn, hs, he⟩)
    · exact Or.inl ⟨m, hm, hs, he.symm⟩
    · exact Or.inr ⟨n, hn, hs, he.symm⟩

/-- Each record falls in exactly one bucket, so the six bucket counts
partition the list. -/
lemma countP_buckets (l : List StoringRec) :
    l.countP (fun s => bucketOf s.tekst = Bucket.pirDetector)
    + l.countP (fun s => bucketOf s.tekst = Bucket.cameraVideo)
    + l.countP (fun s => bucketOf s.tekst = Bucket.communicatie)
    + l.countP (fun s => bucketOf s.tekst = Bucket.voedingAccu)
    + l.countP (fun s => bucketOf s.tekst = Bucket.toegangSlot)
    + l.countP (fun s => bucketOf s.tekst = Bucket.overige)
    = l.length := by
  induction l with
  | nil => rfl
  | cons a t ih =>
    simp only [List.countP_cons, List.length_cons]
    cases h : bucketOf a.tekst <;> simp [h] <;> omega

/-- Claim C10: every qualifying record is assigned to exactly one
fault-type bucket, so the bucket counts of the returned mapping sum to the
returned total fault count. -/
theorem claim10_bucket_partition (blob : BlobData) (w : Option BlobData) :
    (analyse_terugkeer_patronen blob w).storing_types Bucket.pirDetector
    + (analyse_terugkeer_patronen blob w).storing_types Bucket.cameraVideo
    + (analyse_terugkeer_patronen blob w).storing_types Bucket.communicatie
    + (analyse_terugkeer_patronen blob w).storing_types Bucket.voedingAccu
    + (analyse_terugkeer_patronen blob w).storing_types Bucket.toegangSlot
    + (analyse_terugkeer_patronen blob w).storing_types Bucket.overige
    = (analyse_terugkeer_patronen blob w).totaal_storingen := by
  simpa [analyse_terugkeer_patronen] using countP_buckets (extract_storingen blob)

/-- Claim C8, counterexample: the note "ab cd ef g" has only 7
non-whitespace characters (fewer than 10), yet it is scored: the code
tests the stripped length (10 here, interior whitespace included), so the
note lands in the ONVOLLEDIG bucket and in the scores list. -/
theorem claim8_short_note_cex :
    nonWsLen (pyStrip "ab cd ef g".data) = 7
    ∧ (run_compleetheid_analyse ⟨[⟨1, "ab cd ef g".data⟩], []⟩).verdeling_onvolledig = 1
    ∧ (run_compleetheid_analyse ⟨[⟨1, "ab cd ef g".data⟩], []⟩).scores = [0] := by
  refine ⟨by decide, ?_, ?_⟩ <;> decide

/-- Claim C8 as amended: every note whose stripped text (interior
whitespace included) is shorter than 10 characters is excluded entirely
from the completeness analysis: removing it changes no bucket count, no
detail list and not the average. -/
theorem claim8_short_note_excluded (sm pre post : List Notitie) (n : Notitie)
    (h : (pyStrip n.tekst).length < 10) :
    run_compleetheid_analyse ⟨pre ++ n :: post, sm⟩
      = run_compleetheid_analyse ⟨pre ++ post, sm⟩ := by
  have hn : ¬ (10 ≤ (pyStrip n.tekst).length) := Nat.not_le.mpr h
  have hf : scored_notities (pre ++ n :: post) = scored_notities (pre ++ post) := by
    unfold scored_notities
    simp [List.filter_append, List.filter_cons, hn]
  simp only [run_compleetheid_analyse]
  rw [hf]

/-- Witness for claim C8's amended statement: dropping the 4-character
note "kort" does not change the analysis result. -/
theorem claim8_short_note_excluded_witness :
    run_compleetheid_analyse ⟨[⟨2, "kort".data⟩, ⟨1, "pir vervangen werkt".data⟩], []⟩
      = run_compleetheid_analyse ⟨[⟨1, "pir vervangen werkt".data⟩], []⟩ :=
  claim8_short_note_excluded [] [] [⟨1, "pir vervangen werkt".data⟩] ⟨2, "kort".data⟩
    (by decide)

/-- A sublist all of whose elements satisfy `p`, long enough to exhaust
the `p`-count of the ambient list, is exactly its filter. -/
lemma sublist_eq_filter {α : Type} (p : α → Bool) :
    ∀ {c l : List α}, c.Sublist l → (∀ x ∈ c, p x) → l.countP p ≤ c.length →
      c = l.filter p := by
  intro c l h
  induction h with
  | slnil => intro _ _; rfl
  | @cons l₁ l₂ a h ih =>
    intro hall hlen
    by_cases hpa : p a
    · exfalso
      have h1 : l₁.countP p = l₁.length := List.countP_eq_length.mpr hall
      have h2 : l₁.countP p ≤ l₂.countP p := h.countP_le p
      rw [List.countP_cons_of_pos _ _ hpa] at hlen
      omega
    · rw [List.filter_cons_of_neg hpa]
      apply ih hall
      rwa [List.countP_cons_of_neg _ _ hpa] at hlen
  | @cons₂ l₁ l₂ a h ih =>
    intro hall hlen
    have hpa : p a = true := hall a (List.mem_cons_self a l₁)
    rw [List.filter_cons_of_pos hpa]
    have heq : l₁ = l₂.filter p := by
      apply ih (fun x hx => hall x (List.mem_cons_of_mem a hx))
      rw [List.countP_cons_of_pos _ _ hpa] at hlen
      simpa using hlen
    rw [← heq]

/-- Claim C7: the ranked extra-work output contains only notes with at
least one matched category, is sorted descending by summed estimated
value, and is stable: for every value, the records carrying that value
appear in the same order as in the unsorted candidate list. -/
theorem claim7_meerwerk_ranking (blob : BlobData) :
    (∀ r ∈ run_meerwerk_analyse blob,
        r.meerwerk_items ≠ []
          ∧ r.geschatte_waarde = (r.meerwerk_items.map (fun m => m.geschatte_waarde)).sum)
    ∧ (run_meerwerk_analyse blob).Pairwise
        (fun a b => b.geschatte_waarde ≤ a.geschatte_waarde)
    ∧ ∀ v : Nat,
        (run_meerwerk_analyse blob).filter (fun r => r.geschatte_waarde = v)
          = (meerwerk_kandidaten blob).filter (fun r => r.geschatte_waarde = v) := by
  have htrans : ∀ a b c : MeerwerkResult, waardeGE a b → waardeGE b c → waardeGE a c := by
    intro a b c
    simp only [waardeGE, decide_eq_true_eq]
    omega
  have htotal : ∀ a b : MeerwerkResult, waardeGE a b || waardeGE b a := by
    intro a b
    simp only [waardeGE]
    by_cases h : b.geschatte_waarde ≤ a.geschatte_waarde
    · simp [h]
    · simp [h]
      omega
  refine ⟨?_, ?_, ?_⟩
  · intro r hr
    have hmem : r ∈ meerwerk_kandidaten blob := by
      rw [run_meerwerk_analyse] at hr
      exact List.mem_mergeSort.mp hr
    unfold meerwerk_kandidaten at hmem
    simp only [List.mem_filterMap] at hmem
    obtain ⟨n, _, hsome⟩ := hmem
    by_cases he : (scan_for_meerwerk (clean_tekst n.tekst)).isEmpty
    · rw [if_pos he] at hsome
      exact absurd hsome Option.noConfusion
    · rw [if_neg he] at hsome
      obtain rfl := (Option.some.injEq _ _).mp hsome
      refine ⟨?_, rfl⟩
      intro hnil
      apply he
      simp only [List.isEmpty_iff]
      exact hnil
  · have hs := List.sorted_mergeSort htrans htotal (meerwerk_kandidaten blob)
    rw [run_meerwerk_analyse]
    refine hs.imp ?_
    intro a b hab
    simpa [waardeGE, decide_eq_true_eq] using hab
  · intro v
    set p : MeerwerkResult → Bool := fun r => r.geschatte_waarde = v with hp
    set c := (meerwerk_kandidaten blob).filter p with hcdef
    have hsub : c.Sublist (meerwerk_kandidaten blob) := List.filter_sublist _
    have hallc : ∀ x ∈ c, p x := fun x hx => List.of_mem_filter hx
    have hval : ∀ x ∈ c, x.geschatte_waarde = v := by
      intro x hx
      have := hallc x hx
      simpa [hp] using this
    have hpw : c.Pairwise (fun a b => waardeGE a b) := by
      apply List.pairwise_of_forall_mem_list
      intro a ha b hb
      have h1 := hval a ha
      have h2 := hval b hb
      simp [waardeGE, h1, h2]
    have hc : c.Sublist (run_meerwerk_analyse blob) := by
      rw [run_meerwerk_analyse]
      exact List.sublist_mergeSort htrans htotal hpw hsub
    have hcount : (run_meerwerk_analyse blob).countP p ≤ c.length := by
      have hperm : (run_meerwerk_analyse blob).countP p
          = (meerwerk_kandidaten blob).countP p := by
        rw [run_meerwerk_analyse]
        exact (List.mergeSort_perm _ _).countP_eq p
      rw [hperm, hcdef, List.countP_eq_length_filter]
    exact (sublist_eq_filter p hc hallc hcount).symm

/-- Witness for claim C7 at a one-note collection: the single ranked
record has nonempty items and value 235, and the output is sorted. -/
theorem claim7_meerwerk_ranking_witness :
    ((⟨1, "Accu vervangen".data,
      [⟨"vervangen", "Component vervanging", 150⟩, ⟨"accu", "Accu vervanging", 85⟩],
      2, 235⟩ : MeerwerkResult).meerwerk_items ≠ []
      ∧ (⟨1, "Accu vervangen".data,
          [⟨"vervangen", "Component vervanging", 150⟩, ⟨"accu", "Accu vervanging", 85⟩],
          2, 235⟩ : MeerwerkResult).geschatte_waarde
        = ((⟨1, "Accu vervangen".data,
            [⟨"vervangen", "Component vervanging", 150⟩, ⟨"accu", "Accu vervanging", 85⟩],
            2, 235⟩ : MeerwerkResult).meerwerk_items.map
              (fun m => m.geschatte_waarde)).sum)
    ∧ (run_meerwerk_analyse ⟨[⟨1, "Accu vervangen".data⟩], []⟩).Pairwise
        (fun a b => b.geschatte_waarde ≤ a.geschatte_waarde) := by
  refine ⟨(claim7_meerwerk_ranking ⟨[⟨1, "Accu vervangen".data⟩], []⟩).1 _ ?_,
    (claim7_meerwerk_ranking ⟨[⟨1, "Accu vervangen".data⟩], []⟩).2.1⟩
  rw [run_meerwerk_analyse]
  exact List.mem_mergeSort.mpr (by decide)
